import Mathlib

/-!
Shallow embedding of the csse-app study-group chat application, covering:

* the retry-with-backoff helper `retryOperation`, the connectivity health
  check, and `signOut` from the supabase client wrapper
  (src/unnamed/part_000);
* the database schema rows and the `handle_group_deletion` trigger and the
  primary-key / uniqueness constraints of the migrations
  (src/supabase/migrations/20250222105209_fading_mountain.sql);
* the dashboard operations `fetchProfile` and `handleCreateGroup`
  (src/src/components/Dashboard.tsx);
* the find-person search `handleSearch`
  (src/src/components/FindPersonModal.tsx);
* the avatar uploader `handleFileUpload` (src/src/components/Profile.tsx).

Asynchronous effects (awaited promises, timers, the realtime health check)
are modelled by explicit event traces; a rejected promise is an
`Except.error`.
-/

namespace CsseApp

/-! ## Retry helper (src/unnamed/part_000, lines 96–110)

```js
export const retryOperation = async (operation, maxRetries = 3, delay = 1000) => {
  for (let i = 0; i < maxRetries; i++) {
    try {
      return await operation();
    } catch (error) {
      if (i === maxRetries - 1) throw error;
      await new Promise(resolve => setTimeout(resolve, delay * Math.pow(2, i)));
      await checkRealtimeHealth();
    }
  }
};
```

`operation` is modelled as a function from the invocation index (0-based)
to the outcome of that invocation.  The run produces a trace of events
(invocations, `setTimeout` waits with their millisecond argument, and
`checkRealtimeHealth` calls) together with the final outcome of the
promise: a value, the implicit `undefined` when the loop body never runs,
or a thrown error. -/

inductive RetryEvent where
  /-- the `i`-th call of `operation()` (0-based loop counter) -/
  | invoke (i : Nat)
  /-- an awaited `setTimeout` of `ms` milliseconds -/
  | wait (ms : Nat)
  /-- an awaited `checkRealtimeHealth()` call -/
  | health
deriving DecidableEq, Repr

inductive RetryResult (α ε : Type) where
  /-- the promise resolves with `operation`'s value -/
  | value (v : α)
  /-- the promise resolves with `undefined` (fall off the end of the loop) -/
  | undef
  /-- the promise rejects with a thrown error -/
  | thrown (e : ε)
deriving DecidableEq, Repr

/-- One step of the `for (let i = 0; i < maxRetries; i++)` loop.  `fuel` is
an upper bound on the remaining iterations used only for termination; the
loop guard itself is the faithful `(i : Int) < maxRetries` test. -/
def retryLoop (op : Nat → Except ε α) (maxRetries : Int) (delay : Nat) :
    Nat → Nat → List RetryEvent × RetryResult α ε
  | _, 0 => ([], .undef)
  | i, Nat.succ fuel =>
    if (i : Int) < maxRetries then
      match op i with
      | .ok v => ([.invoke i], .value v)
      | .error e =>
        if (i : Int) = maxRetries - 1 then
          ([.invoke i], .thrown e)
        else
          let rest := retryLoop op maxRetries delay (i + 1) fuel
          (.invoke i :: .wait (delay * 2 ^ i) :: .health :: rest.1, rest.2)
    else ([], .undef)

/-- Top-level `retryOperation(operation, maxRetries, delay)`: run the loop from
`i = 0`.  `maxRetries.toNat` iterations of fuel are exactly enough, since
the guard `i < maxRetries` fails as soon as `i` reaches `maxRetries`. -/
def retryOperation (op : Nat → Except ε α) (maxRetries : Int) (delay : Nat) :
    List RetryEvent × RetryResult α ε :=
  retryLoop op maxRetries delay 0 maxRetries.toNat

/-- Number of `operation()` invocations recorded in a trace. -/
def invokeCount (tr : List RetryEvent) : Nat :=
  tr.countP fun e => match e with | .invoke _ => true | _ => false

/-- The millisecond arguments of the `setTimeout` waits of a trace,
in order. -/
def waitsOf (tr : List RetryEvent) : List Nat :=
  tr.filterMap fun e => match e with | .wait ms => some ms | _ => none

/-- Number of `checkRealtimeHealth()` calls recorded in a trace. -/
def healthCount (tr : List RetryEvent) : Nat :=
  tr.countP fun e => match e with | .health => true | _ => false

/-- The burst of events produced by failed attempt `j` that is followed by
another attempt: the invocation, the backoff wait, and the health check. -/
def failBurst (delay : Nat) (j : Nat) : List RetryEvent :=
  [.invoke j, .wait (delay * 2 ^ j), .health]

/-- The trace produced by `m` consecutive failed attempts starting at
attempt `i`, each of which is followed by a further attempt. -/
def failTrace (delay : Nat) (i m : Nat) : List RetryEvent :=
  match m with
  | 0 => []
  | m + 1 => failBurst delay i ++ failTrace delay (i + 1) m

theorem failTrace_invokeCount (d i m : Nat) : invokeCount (failTrace d i m) = m := by
  induction m generalizing i with
  | zero => rfl
  | succ m ih =>
    simp only [failTrace, failBurst, invokeCount] at *
    simp [List.countP_append, List.countP_cons, ih]

theorem failTrace_healthCount (d i m : Nat) : healthCount (failTrace d i m) = m := by
  induction m generalizing i with
  | zero => rfl
  | succ m ih =>
    simp only [failTrace, failBurst, healthCount] at *
    simp [List.countP_append, List.countP_cons, ih]

theorem failTrace_waits (d i m : Nat) :
    waitsOf (failTrace d i m) = (List.range' i m).map (fun j => d * 2 ^ j) := by
  induction m generalizing i with
  | zero => rfl
  | succ m ih =>
    simp only [failTrace, failBurst, waitsOf, List.filterMap_append, List.range'_succ,
      List.map_cons] at *
    rw [ih]
    rfl

theorem failTrace_snoc (d i m : Nat) :
    failTrace d i (m + 1) = failTrace d i m ++ failBurst d (i + m) := by
  induction m generalizing i with
  | zero => simp [failTrace]
  | succ m ih =>
    rw [failTrace, ih, failTrace]
    simp [Nat.add_assoc, Nat.add_comm 1 m]

/-- If the operation fails on every one of the attempts `i, …, i + m - 1`
and attempt `i + m` is still within the attempt budget, the loop emits the
corresponding failure bursts and then continues from attempt `i + m`.
The fuel `n - i` matches the fuel the top-level call supplies. -/
theorem retryLoop_fail_prefix (op : Nat → Except ε α) (n d : Nat) :
    ∀ m i : Nat, i + m < n → (∀ j, j < m → ∃ e, op (i + j) = .error e) →
    retryLoop op (n : Int) d i (n - i) =
      (failTrace d i m ++ (retryLoop op (n : Int) d (i + m) (n - (i + m))).1,
       (retryLoop op (n : Int) d (i + m) (n - (i + m))).2) := by
  intro m
  induction m with
  | zero =>
    intro i _ _
    simp [failTrace]
  | succ m ih =>
    intro i him hfail
    have hi : i < n := by omega
    have hfuel : n - i = (n - (i + 1)) + 1 := by omega
    have hguard : (i : Int) < (n : Int) := by exact_mod_cast hi
    obtain ⟨e0, he0⟩ := hfail 0 (Nat.succ_pos m)
    rw [Nat.add_zero] at he0
    rw [hfuel]
    cases hop : op i with
    | ok v => rw [hop] at he0; simp at he0
    | error e =>
      have hne : ¬ ((i : Int) = (n : Int) - 1) := by omega
      have hrest := ih (i + 1) (by omega) (fun j hj => by
        have h := hfail (j + 1) (by omega)
        have harith : i + (j + 1) = i + 1 + j := by omega
        rwa [harith] at h)
      have harith2 : i + 1 + m = i + (m + 1) := by omega
      rw [harith2] at hrest
      simp only [retryLoop, hop, if_pos hguard, if_neg hne]
      rw [hrest]
      simp [failTrace, failBurst]

/-- Unfolding the loop at an attempt that is within the budget: the trace
starts with that attempt's invocation. -/
theorem retryLoop_head (op : Nat → Except ε α) (n d i : Nat) (hi : i < n) :
    ∃ t, (retryLoop op (n : Int) d i (n - i)).1 = .invoke i :: t := by
  have hfuel : n - i = (n - (i + 1)) + 1 := by omega
  have hguard : (i : Int) < (n : Int) := by exact_mod_cast hi
  rw [hfuel]
  cases hop : op i with
  | ok v => exact ⟨[], by simp [retryLoop, hop, hguard, hi]⟩
  | error e =>
    by_cases hlast : (i : Int) = (n : Int) - 1
    · exact ⟨[], by simp [retryLoop, hop, hguard, hi, if_pos hlast]⟩
    · exact ⟨.wait (d * 2 ^ i) :: .health :: (retryLoop op (n : Int) d (i + 1) (n - (i + 1))).1,
        by simp only [retryLoop, hop, if_pos hguard, if_neg hlast]⟩

/-- Every wait the loop ever emits from attempt `i` on is `delay * 2 ^ j`
for a contiguous block of attempt indices `j` starting at `i`. -/
theorem retryLoop_waits (op : Nat → Except ε α) (N : Int) (d : Nat) :
    ∀ fuel i : Nat, ∃ k,
      waitsOf (retryLoop op N d i fuel).1 = (List.range' i k).map (fun j => d * 2 ^ j) := by
  intro fuel
  induction fuel with
  | zero => intro i; exact ⟨0, rfl⟩
  | succ fuel ih =>
    intro i
    by_cases hguard : (i : Int) < N
    · cases hop : op i with
      | ok v => exact ⟨0, by simp [retryLoop, hop, if_pos hguard, waitsOf]⟩
      | error e =>
        by_cases hlast : (i : Int) = N - 1
        · exact ⟨0, by simp [retryLoop, hop, if_pos hguard, if_pos hlast, waitsOf]⟩
        · obtain ⟨k, hk⟩ := ih (i + 1)
          refine ⟨k + 1, ?_⟩
          simp only [retryLoop, hop, if_pos hguard, if_neg hlast, waitsOf,
            List.filterMap_cons, List.range'_succ, List.map_cons]
          rw [← waitsOf, hk]
    · exact ⟨0, by simp [retryLoop, if_neg hguard, waitsOf]⟩

theorem invokeCount_append (a b : List RetryEvent) :
    invokeCount (a ++ b) = invokeCount a + invokeCount b := by
  simp [invokeCount, List.countP_append]

/-- A final attempt that succeeds: only the invocation is recorded and the
value is returned. -/
theorem retryLoop_step_ok (op : Nat → Except ε α) (N : Int) (d i : Nat) (v : α)
    (fuel : Nat) (hg : (i : Int) < N) (hok : op i = .ok v) :
    retryLoop op N d i (fuel + 1) = ([.invoke i], .value v) := by
  simp [retryLoop, hok, hg]

/-- A failing attempt at `i = maxRetries - 1`: the error is re-thrown. -/
theorem retryLoop_step_throw (op : Nat → Except ε α) (N : Int) (d i : Nat) (e : ε)
    (fuel : Nat) (_hg : (i : Int) < N) (hlast : (i : Int) = N - 1)
    (herr : op i = .error e) :
    retryLoop op N d i (fuel + 1) = ([.invoke i], .thrown e) := by
  simp [retryLoop, herr, _hg, hlast]

/-- A run in which the first `n - 1` attempts fail reaches the final
attempt after emitting exactly the `n - 1` failure bursts. -/
theorem retryOperation_run (n : Nat) (hn : 1 ≤ n) (op : Nat → Except ε α) (d : Nat)
    (hfail : ∀ j, j < n - 1 → ∃ e, op j = .error e) :
    retryOperation op (n : Int) d =
      (failTrace d 0 (n - 1) ++ (retryLoop op (n : Int) d (n - 1) 1).1,
       (retryLoop op (n : Int) d (n - 1) 1).2) := by
  have h := retryLoop_fail_prefix op n d (n - 1) 0 (by omega)
    (fun j hj => by simpa using hfail j hj)
  simp only [Nat.zero_add, Nat.sub_zero] at h
  rw [show n - (n - 1) = 1 from by omega] at h
  unfold retryOperation
  rw [show ((n : Int)).toNat = n from by simp]
  exact h

/-- C1.  For every operation `op` and attempt budget `N = maxRetries ≥ 1`:
if `op` rejects on its first `N - 1` invocations and fulfils with `v` on the
`N`-th, `retryOperation(op, N, delay)` invokes `op` exactly `N` times and
resolves with `v`; if `op` rejects on every invocation, `retryOperation`
invokes `op` exactly `N` times and rejects with the error of the `N`-th
(final) invocation. -/
theorem retryOperation_attempt_count_and_outcome (n : Nat) (hn : 1 ≤ n)
    (op : Nat → Except ε α) (d : Nat) :
    (∀ v : α, (∀ j, j < n - 1 → ∃ e, op j = .error e) → op (n - 1) = .ok v →
      (retryOperation op (n : Int) d).2 = .value v ∧
      invokeCount (retryOperation op (n : Int) d).1 = n) ∧
    (∀ errs : Nat → ε, (∀ j, op j = .error (errs j)) →
      (retryOperation op (n : Int) d).2 = .thrown (errs (n - 1)) ∧
      invokeCount (retryOperation op (n : Int) d).1 = n) := by
  have hg : ((n - 1 : Nat) : Int) < (n : Int) := by omega
  constructor
  · intro v hfail hok
    have hrun := retryOperation_run n hn op d hfail
    have hfin : retryLoop op (n : Int) d (n - 1) 1 = ([.invoke (n - 1)], .value v) :=
      retryLoop_step_ok op (n : Int) d (n - 1) v 0 hg hok
    rw [hrun, hfin]
    refine ⟨rfl, ?_⟩
    have h1 : invokeCount [RetryEvent.invoke (n - 1)] = 1 := rfl
    simp only [invokeCount_append, failTrace_invokeCount, h1]
    omega
  · intro errs herr
    have hrun := retryOperation_run n hn op d (fun j _ => ⟨errs j, herr j⟩)
    have hlast : ((n - 1 : Nat) : Int) = (n : Int) - 1 := by omega
    have hfin : retryLoop op (n : Int) d (n - 1) 1 =
        ([.invoke (n - 1)], .thrown (errs (n - 1))) :=
      retryLoop_step_throw op (n : Int) d (n - 1) (errs (n - 1)) 0 hg hlast (herr (n - 1))
    rw [hrun, hfin]
    refine ⟨rfl, ?_⟩
    have h1 : invokeCount [RetryEvent.invoke (n - 1)] = 1 := rfl
    simp only [invokeCount_append, failTrace_invokeCount, h1]
    omega

/-- Witness for C1: with `maxRetries = 2`, an operation that rejects once
and then fulfils with `7` is invoked twice and the run resolves with `7`. -/
theorem retryOperation_attempt_count_and_outcome_witness :
    (retryOperation (fun j => if j = 0 then (Except.error () : Except Unit Nat) else .ok 7)
        ((2 : Nat) : Int) 1).2 = .value 7 ∧
    invokeCount
      (retryOperation (fun j => if j = 0 then (Except.error () : Except Unit Nat) else .ok 7)
        ((2 : Nat) : Int) 1).1 = 2 :=
  (retryOperation_attempt_count_and_outcome 2 (by norm_num)
      (fun j => if j = 0 then (Except.error () : Except Unit Nat) else .ok 7) 1).1 7
    (fun j hj => ⟨(), by have hj0 : j = 0 := by omega
                         subst hj0
                         rfl⟩)
    (by norm_num)

/-- C9.  If `maxRetries ≤ 0`, the `for` loop body never runs:
`retryOperation` resolves with `undefined`, never invokes the operation,
and raises no error. -/
theorem retryOperation_nonpositive_budget (op : Nat → Except ε α)
    (maxRetries : Int) (d : Nat) (h : maxRetries ≤ 0) :
    retryOperation op maxRetries d = ([], .undef) := by
  unfold retryOperation
  rw [Int.toNat_of_nonpos h]
  rfl

/-- Witness for C9 at `maxRetries = -1`. -/
theorem retryOperation_nonpositive_budget_witness :
    (-1 : Int) ≤ 0 ∧
    retryOperation (fun _ => (Except.ok 0 : Except Unit Nat)) (-1) 5 = ([], .undef) :=
  ⟨by norm_num,
   retryOperation_nonpositive_budget (fun _ => (Except.ok 0 : Except Unit Nat)) (-1) 5
     (by norm_num)⟩

/-- Counterexample to C7 as stated: with base delay `d = 0` (and an
always-rejecting operation, `maxRetries = 3`) the two backoff waits are
`0` and `0` milliseconds, which do not strictly increase. -/
theorem retryOperation_waits_not_strict_at_zero_delay :
    waitsOf (retryOperation (fun _ => (Except.error () : Except Unit Nat)) (3 : Int) 0).1
      = [0, 0] ∧
    ¬ (waitsOf (retryOperation (fun _ => (Except.error () : Except Unit Nat)) (3 : Int) 0).1).Pairwise
        (fun a b => a < b) := by
  decide

/-- C7, amended: for `maxRetries = N`, base delay `d`, and an `i`-th
failed attempt with `i + 1 < N`, the run waits exactly `d * 2 ^ i` between
attempts `i` and `i + 1` and calls `checkRealtimeHealth` exactly once
between that pair of attempts (one health check per burst); all the waits
of a run are `d, 2d, 4d, …` in order, and they strictly increase whenever
`d ≥ 1` (for `d = 0` every wait is `0`). -/
theorem retryOperation_backoff_and_health (n d i : Nat) (op : Nat → Except ε α)
    (hi : i + 1 < n) (hfail : ∀ j, j ≤ i → ∃ e, op j = .error e) :
    (∃ t, (retryOperation op (n : Int) d).1 =
        failTrace d 0 i ++ [.invoke i, .wait (d * 2 ^ i), .health, .invoke (i + 1)] ++ t) ∧
    healthCount (failBurst d i) = 1 ∧
    (∃ k, waitsOf (retryOperation op (n : Int) d).1 =
        (List.range k).map fun j => d * 2 ^ j) ∧
    (1 ≤ d → (waitsOf (retryOperation op (n : Int) d).1).Pairwise (fun a b => a < b)) := by
  have hpre := retryLoop_fail_prefix op n d (i + 1) 0 (by omega)
    (fun j hj => by simpa using hfail j (by omega))
  simp only [Nat.zero_add, Nat.sub_zero] at hpre
  have hhead := retryLoop_head op n d (i + 1) (by omega)
  obtain ⟨t, ht⟩ := hhead
  have hsnoc : failTrace d 0 (i + 1) = failTrace d 0 i ++ failBurst d i := by
    have := failTrace_snoc d 0 i
    simpa using this
  have htop : retryOperation op (n : Int) d = retryLoop op (n : Int) d 0 n := by
    unfold retryOperation
    rw [show ((n : Int)).toNat = n from by simp]
  have hwaits := retryLoop_waits op (n : Int) d n 0
  refine ⟨⟨t, ?_⟩, rfl, ?_, ?_⟩
  · rw [htop, hpre]
    rw [show ((failTrace d 0 (i + 1) ++ (retryLoop op (n : Int) d (i + 1) (n - (i + 1))).1,
        (retryLoop op (n : Int) d (i + 1) (n - (i + 1))).2)).1
      = failTrace d 0 (i + 1) ++ (retryLoop op (n : Int) d (i + 1) (n - (i + 1))).1 from rfl]
    rw [ht, hsnoc]
    simp [failBurst]
  · obtain ⟨k, hk⟩ := hwaits
    refine ⟨k, ?_⟩
    rw [htop, hk, List.range_eq_range']
  · intro hd
    obtain ⟨k, hk⟩ := hwaits
    rw [htop, hk]
    rw [List.pairwise_map]
    have hr : (List.range' 0 k).Pairwise (fun a b => a < b) := List.pairwise_lt_range' 0 k
    exact hr.imp fun hab =>
      mul_lt_mul_of_pos_left (Nat.pow_lt_pow_right Nat.one_lt_two hab) (by omega)

/-- Witness for C7 (amended) at `N = 3`, `d = 1`, `i = 0`, with an
always-rejecting operation. -/
theorem retryOperation_backoff_and_health_witness :
    (∃ t, (retryOperation (fun _ => (Except.error () : Except Unit Nat)) ((3 : Nat) : Int) 1).1 =
        failTrace 1 0 0 ++ [.invoke 0, .wait (1 * 2 ^ 0), .health, .invoke 1] ++ t) ∧
    healthCount (failBurst 1 0) = 1 ∧
    (∃ k, waitsOf (retryOperation (fun _ => (Except.error () : Except Unit Nat)) ((3 : Nat) : Int) 1).1 =
        (List.range k).map fun j => 1 * 2 ^ j) ∧
    (1 ≤ 1 → (waitsOf (retryOperation (fun _ => (Except.error () : Except Unit Nat)) ((3 : Nat) : Int) 1).1).Pairwise
        (fun a b => a < b)) :=
  retryOperation_backoff_and_health 3 1 0 (fun _ => (Except.error () : Except Unit Nat))
    (by norm_num) (fun j _ => ⟨(), rfl⟩)

/-! ## Database rows
(src/supabase/migrations/20250222105209_fading_mountain.sql)

Row types for the tables `messages`, `groups`, `group_members`,
`user_profiles`, and `meetings`.  `uuid` columns are modelled as `String`;
nullable columns as `Option`.  Timestamps are irrelevant to every claim
and are omitted. -/

structure MessageRow where
  id : String
  text : String
  sender : String
  /-- column `group_id uuid` — nullable, no foreign key -/
  group_id : Option String
deriving DecidableEq, Repr

structure GroupRow where
  id : String
  name : String
  description : String
  topics : List String
  max_members : Nat
  /-- column `invite_code text UNIQUE` — nullable with a random default -/
  invite_code : Option String
deriving DecidableEq, Repr

structure MemberRow where
  /-- part of `PRIMARY KEY (group_id, user_id)` -/
  group_id : String
  /-- part of `PRIMARY KEY (group_id, user_id)` -/
  user_id : String
  is_creator : Bool
deriving DecidableEq, Repr

structure UserProfile where
  id : String
  name : String
  bio : String
  topics : List String
  theme : String
  /-- column `view_code text UNIQUE` — nullable -/
  view_code : Option String
  profile_picture_url : Option String
  custom_avatar_url : Option String
  gender : String
deriving DecidableEq, Repr

structure MeetingRow where
  id : String
  /-- column `group_id uuid REFERENCES groups(id)` — nullable -/
  group_id : Option String
  topic : String
  jitsi_link : String
  created_by : String
deriving DecidableEq, Repr

/-- The database state: one list of rows per table. -/
structure Db where
  messages : List MessageRow
  groups : List GroupRow
  group_members : List MemberRow
  user_profiles : List UserProfile
  meetings : List MeetingRow
deriving DecidableEq, Repr

/-! ## Group deletion cascade
(migration lines 135–147 and 204–208)

```sql
CREATE OR REPLACE FUNCTION handle_group_deletion() ... AS $$
BEGIN
  DELETE FROM messages WHERE group_id = OLD.id;
  DELETE FROM meetings WHERE group_id = OLD.id;
  DELETE FROM group_members WHERE group_id = OLD.id;
  RETURN OLD;
END; $$;

CREATE TRIGGER before_group_delete
  BEFORE DELETE ON groups FOR EACH ROW
  EXECUTE FUNCTION handle_group_deletion();
```

`DELETE … WHERE group_id = x` removes exactly the rows whose `group_id`
equals `x` (a SQL `=` with a `NULL` `group_id` is not true, so rows with a
null group are kept). -/

/-- The `BEFORE DELETE` trigger body, run with `OLD.id = oldId`. -/
def handle_group_deletion (db : Db) (oldId : String) : Db :=
  { db with
    messages := db.messages.filter fun m => ¬ m.group_id = some oldId
    meetings := db.meetings.filter fun m => ¬ m.group_id = some oldId
    group_members := db.group_members.filter fun m => ¬ m.group_id = oldId }

/-- Deleting the group row with id `gid`: the `before_group_delete` trigger
fires for the row, then the row itself is removed from `groups`. -/
def deleteGroup (db : Db) (gid : String) : Db :=
  let db1 := handle_group_deletion db gid
  { db1 with groups := db1.groups.filter fun g => ¬ g.id = gid }

/-- C2.  Deleting a group `g` deletes exactly the messages, memberships,
and meetings whose `group_id` is `g`'s id: a row of any of the three tables
survives the deletion iff it was present before and does not belong to the
deleted group — so every row of the deleted group is removed and no row of
any other group is touched. -/
theorem deleteGroup_cascades (db : Db) (gid : String) :
    (∀ m : MessageRow,
      m ∈ (deleteGroup db gid).messages ↔ m ∈ db.messages ∧ m.group_id ≠ some gid) ∧
    (∀ m : MemberRow,
      m ∈ (deleteGroup db gid).group_members ↔ m ∈ db.group_members ∧ m.group_id ≠ gid) ∧
    (∀ m : MeetingRow,
      m ∈ (deleteGroup db gid).meetings ↔ m ∈ db.meetings ∧ m.group_id ≠ some gid) := by
  refine ⟨fun m => ?_, fun m => ?_, fun m => ?_⟩ <;>
    simp [deleteGroup, handle_group_deletion, List.mem_filter]

/-! ## Find-person search
(src/src/components/FindPersonModal.tsx, `handleSearch`, lines 18–57)

The search resets the component state (`profile = null`, `groups = []`,
`error = null`), queries `user_profiles` with `.eq('view_code', viewCode)
.single()` — `single()` yields an error unless exactly one row matches —
and on failure throws `new Error('User not found')`, which the catch block
stores as the displayed error.  On success it stores the profile, reads the
profile's `group_members` rows, and loads the groups whose ids occur among
those rows. -/

/-- Model of `.select().eq('view_code', c).single()`: ok exactly when exactly one
profile row has `view_code = c`. -/
def singleByViewCode (profiles : List UserProfile) (c : String) :
    Except String UserProfile :=
  match profiles.filter fun p => p.view_code = some c with
  | [p] => .ok p
  | _ => .error "multiple or no rows returned"

/-- The component state `handleSearch` leaves behind. -/
structure FindPersonState where
  profile : Option UserProfile
  groups : List GroupRow
  error : Option String
deriving DecidableEq, Repr

def handleSearch (db : Db) (viewCode : String) : FindPersonState :=
  match singleByViewCode db.user_profiles viewCode with
  | .error _ => { profile := none, groups := [], error := some "User not found" }
  | .ok p =>
    let memberData := (db.group_members.filter fun m => m.user_id = p.id).map
      fun m => m.group_id
    if memberData.length > 0 then
      { profile := some p
        groups := db.groups.filter fun g => memberData.contains g.id
        error := none }
    else
      { profile := some p, groups := [], error := none }

/-- C3.  If exactly one stored profile `p` has the searched view code,
`handleSearch` displays `p` and exactly the groups in which `p` holds a
membership row (and no error); if no stored profile has the code, it
displays the "User not found" error and leaves the displayed profile
empty. -/
theorem handleSearch_spec (db : Db) (c : String) :
    (∀ p : UserProfile, db.user_profiles.filter (fun q => q.view_code = some c) = [p] →
      handleSearch db c =
        { profile := some p
          groups := db.groups.filter fun g =>
            db.group_members.any fun m => m.user_id = p.id ∧ m.group_id = g.id
          error := none }) ∧
    ((∀ q ∈ db.user_profiles, ¬ q.view_code = some c) →
      handleSearch db c = { profile := none, groups := [], error := some "User not found" }) := by
  constructor
  · intro p hp
    have hsingle : singleByViewCode db.user_profiles c = .ok p := by
      unfold singleByViewCode
      rw [hp]
    have hcontains : ∀ g : GroupRow,
        (((db.group_members.filter fun m => m.user_id = p.id).map
            fun m => m.group_id).contains g.id)
        = (db.group_members.any fun m => m.user_id = p.id ∧ m.group_id = g.id) := by
      intro g
      rw [Bool.eq_iff_iff]
      simp only [List.contains_iff_exists_mem_beq, List.mem_map, List.mem_filter,
        List.any_eq_true, beq_iff_eq, decide_eq_true_eq]
      constructor
      · rintro ⟨x, ⟨m, ⟨hm, hu⟩, rfl⟩, hx⟩
        exact ⟨m, hm, hu, hx.symm⟩
      · rintro ⟨m, hm, hu, hg⟩
        exact ⟨m.group_id, ⟨m, ⟨hm, hu⟩, rfl⟩, hg.symm⟩
    unfold handleSearch
    rw [hsingle]
    by_cases hlen : ((db.group_members.filter fun m => m.user_id = p.id).map
        fun m => m.group_id).length > 0
    · simp only [hlen, if_true, if_pos]
      refine congrArg (fun l => FindPersonState.mk (some p) l none) ?_
      exact List.filter_congr fun g _ => hcontains g
    · simp only [hlen, if_false, if_neg, not_false_iff]
      refine congrArg (fun l => FindPersonState.mk (some p) l none) ?_
      have hnil : (db.group_members.filter fun m => m.user_id = p.id) = [] := by
        have hlen0 : ((db.group_members.filter fun m => m.user_id = p.id).map
            fun m => m.group_id).length = 0 := by omega
        rw [List.length_map] at hlen0
        exact List.length_eq_zero.mp hlen0
      symm
      rw [List.filter_eq_nil_iff]
      intro g _
      simp only [List.any_eq_true, decide_eq_true_eq, not_exists]
      rintro m ⟨hm, hu, _⟩
      have hmem : m ∈ db.group_members.filter fun m => m.user_id = p.id := by
        simp [List.mem_filter, hm, hu]
      rw [hnil] at hmem
      simp at hmem
  · intro hnone
    have hfilter : db.user_profiles.filter (fun q => q.view_code = some c) = [] := by
      rw [List.filter_eq_nil_iff]
      intro q hq
      simpa using hnone q hq
    obtain ⟨s, hs⟩ : ∃ s, singleByViewCode db.user_profiles c = .error s := by
      unfold singleByViewCode
      rw [hfilter]
      exact ⟨_, rfl⟩
    unfold handleSearch
    rw [hs]

/-- Witness data for C3: one profile `"u1"` with view code `"CODE"`,
a membership of `"u1"` in group `"g1"`, and a second group `"g2"` that
`"u1"` is not a member of. -/
def fpProfile : UserProfile :=
  { id := "u1", name := "Ada", bio := "hi", topics := [], theme := "dark",
    view_code := some "CODE", profile_picture_url := none,
    custom_avatar_url := none, gender := "other" }

def fpGroup1 : GroupRow :=
  { id := "g1", name := "G1", description := "", topics := [],
    max_members := 10, invite_code := some "inv1" }

def fpGroup2 : GroupRow :=
  { id := "g2", name := "G2", description := "", topics := [],
    max_members := 10, invite_code := some "inv2" }

def fpDb : Db :=
  { messages := [], groups := [fpGroup1, fpGroup2],
    group_members := [{ group_id := "g1", user_id := "u1", is_creator := true }],
    user_profiles := [fpProfile], meetings := [] }

/-- Witness for C3: searching `"CODE"` finds the profile and its one
group; searching `"NOPE"` reports "User not found". -/
theorem handleSearch_spec_witness :
    handleSearch fpDb "CODE" =
      { profile := some fpProfile
        groups := fpDb.groups.filter fun g =>
          fpDb.group_members.any fun m => m.user_id = fpProfile.id ∧ m.group_id = g.id
        error := none } ∧
    handleSearch fpDb "NOPE" =
      { profile := none, groups := [], error := some "User not found" } :=
  ⟨(handleSearch_spec fpDb "CODE").1 fpProfile (by decide),
   (handleSearch_spec fpDb "NOPE").2 (by decide)⟩

/-! ## Group creation
(src/src/components/Dashboard.tsx, `handleCreateGroup`, lines 161–198)

```js
const inviteCode = Array.from(Array(12), () =>
  Math.floor(Math.random() * 36).toString(36)
).join('');
```
then an insert into `groups` (whose `invite_code` column is `UNIQUE` and
whose `id` is the primary key, migration lines 33–41) and, on success, one
insert into `group_members` with `is_creator: true`.  Either insert error
aborts the handler. -/

/-- Digit character `n.toString(36)` for a single `n < 36`: `'0'`–`'9'` then
`'a'`–`'z'`. -/
def base36Char (n : Nat) : Char :=
  if n < 10 then Char.ofNat (48 + n) else Char.ofNat (87 + n)

/-- The environment of one `handleCreateGroup` run: the twelve
`Math.random()` draws (as arbitrary naturals; `Math.floor(r * 36)` always
lies in `[0, 36)`, hence the `% 36`) and the `id` the database generates
for the new row. -/
structure CreateGroupEnv where
  randDigit : Nat → Nat
  newGroupId : String

/-- The generated invite code: twelve base-36 characters. -/
def inviteCodeOf (env : CreateGroupEnv) : String :=
  String.mk ((List.range 12).map fun k => base36Char (env.randDigit k % 36))

/-- SQL `INSERT INTO groups`: rejected when the primary key `id` or the
`UNIQUE` (non-null) `invite_code` collides with an existing row. -/
def insertGroup (db : Db) (g : GroupRow) : Except String Db :=
  if db.groups.any fun g0 =>
      g0.id = g.id ∨ (g0.invite_code.isSome ∧ g0.invite_code = g.invite_code) then
    .error "duplicate key value violates unique constraint"
  else .ok { db with groups := db.groups ++ [g] }

/-- SQL `INSERT INTO group_members`: rejected when the primary key
`(group_id, user_id)` collides with an existing row
(migration lines 43–49). -/
def insertMember (db : Db) (m : MemberRow) : Except String Db :=
  if db.group_members.any fun m0 =>
      m0.group_id = m.group_id ∧ m0.user_id = m.user_id then
    .error "duplicate key value violates unique constraint"
  else .ok { db with group_members := db.group_members ++ [m] }

/-- One `handleCreateGroup(name, description, topics, maxMembers)` run by user
`userId`: returns the updated database and, on a fully successful run, the
created group row. -/
def handleCreateGroup (db : Db) (env : CreateGroupEnv) (userId : String)
    (name description : String) (topics : List String) (maxMembers : Nat) :
    Db × Option GroupRow :=
  let inviteCode := inviteCodeOf env
  let g : GroupRow :=
    { id := env.newGroupId, name := name, description := description,
      topics := topics, max_members := maxMembers, invite_code := some inviteCode }
  match insertGroup db g with
  | .error _ => (db, none)
  | .ok db1 =>
    match insertMember db1 { group_id := g.id, user_id := userId, is_creator := true } with
    | .error _ => (db1, none)
    | .ok db2 => (db2, some g)

/-- C4.  Every successful `handleCreateGroup` run creates a group whose
invite code is the twelve-character generated code — in particular
non-empty — and distinct from the invite code of every pre-existing group,
and inserts exactly one `group_members` row, for the creating user, with
`is_creator = true`. -/
theorem handleCreateGroup_success (db : Db) (env : CreateGroupEnv)
    (userId name description : String) (topics : List String) (maxMembers : Nat)
    (db' : Db) (g : GroupRow)
    (hrun : handleCreateGroup db env userId name description topics maxMembers
      = (db', some g)) :
    g.invite_code = some (inviteCodeOf env) ∧
    (inviteCodeOf env).length = 12 ∧
    inviteCodeOf env ≠ "" ∧
    (∀ g0 ∈ db.groups, g0.invite_code ≠ g.invite_code) ∧
    db'.group_members =
      db.group_members ++ [{ group_id := g.id, user_id := userId, is_creator := true }] := by
  have hlen : (inviteCodeOf env).length = 12 := by
    simp [inviteCodeOf, String.length]
  unfold handleCreateGroup insertGroup insertMember at hrun
  by_cases hdup : db.groups.any fun g0 =>
      g0.id = env.newGroupId ∨
      (g0.invite_code.isSome ∧ g0.invite_code = some (inviteCodeOf env))
  · simp only [hdup, if_true, if_pos] at hrun
    simp at hrun
  · simp only [hdup, if_false, if_neg, not_false_iff, Bool.not_eq_true] at hrun
    by_cases hdup2 : db.group_members.any fun m0 =>
        m0.group_id = env.newGroupId ∧ m0.user_id = userId
    · simp only [hdup2, if_true, if_pos] at hrun
      simp at hrun
    · simp only [hdup2, if_false, if_neg, not_false_iff, Bool.not_eq_true] at hrun
      rw [Prod.mk.injEq] at hrun
      obtain ⟨hdb', hg⟩ := hrun
      have hg' : g =
          { id := env.newGroupId, name := name, description := description,
            topics := topics, max_members := maxMembers,
            invite_code := some (inviteCodeOf env) } :=
        (Option.some.inj hg).symm
      subst hg'
      refine ⟨rfl, hlen, ?_, ?_, ?_⟩
      · intro hempty
        rw [hempty] at hlen
        simp at hlen
      · intro g0 hg0 hcode
        rw [List.any_eq_true] at hdup
        exact hdup ⟨g0, hg0, by simp [hcode]⟩
      · rw [← hdb']

/-- Witness for C4: creating a group in an empty database with the all-zero
random draws succeeds and satisfies the conclusion. -/
def cgEnv : CreateGroupEnv := { randDigit := fun _ => 0, newGroupId := "g-new" }

def emptyDb : Db :=
  { messages := [], groups := [], group_members := [], user_profiles := [],
    meetings := [] }

theorem handleCreateGroup_success_witness :
    (let r := handleCreateGroup emptyDb cgEnv "u1" "N" "D" [] 10
     ∃ db' g, r = (db', some g) ∧
       g.invite_code = some (inviteCodeOf cgEnv) ∧
       (inviteCodeOf cgEnv).length = 12 ∧
       inviteCodeOf cgEnv ≠ "" ∧
       (∀ g0 ∈ emptyDb.groups, g0.invite_code ≠ g.invite_code) ∧
       db'.group_members =
         emptyDb.group_members ++
           [{ group_id := g.id, user_id := "u1", is_creator := true }]) := by
  refine ⟨(handleCreateGroup emptyDb cgEnv "u1" "N" "D" [] 10).1,
    { id := "g-new", name := "N", description := "D", topics := [],
      max_members := 10, invite_code := some (inviteCodeOf cgEnv) }, ?_, ?_⟩
  · decide
  · exact handleCreateGroup_success emptyDb cgEnv "u1" "N" "D" [] 10 _ _ (by decide)

/-! ## Joining a group
(schema: `group_members`, migration lines 43–49) -/

/-- Modelled from the spec: the join-group flow itself (the
`JoinGroupModal` component) is not among the available source files — only
the `group_members` schema is.  Per the spec, "Joining with a known invite
code adds exactly one membership row for the joining user and does not
duplicate it on repeat attempts": joining looks the group up by its invite
code and inserts one `group_members` row for the joining user, subject to
the table's `(group_id, user_id)` primary key. -/
def joinGroup (db : Db) (code : String) (userId : String) : Db × Option String :=
  match db.groups.find? fun g => g.invite_code = some code with
  | none => (db, some "Group not found")
  | some g =>
    match insertMember db { group_id := g.id, user_id := userId, is_creator := false } with
    | .ok db1 => (db1, none)
    | .error e => (db, some e)

/-- A membership insert with no primary-key collision succeeds and appends
the row. -/
theorem insertMember_ok (db : Db) (m : MemberRow)
    (h : (db.group_members.any fun m0 =>
      m0.group_id = m.group_id ∧ m0.user_id = m.user_id) = false) :
    insertMember db m = .ok { db with group_members := db.group_members ++ [m] } := by
  unfold insertMember
  rw [if_neg (by rw [h]; simp)]

/-- A membership insert whose primary key collides is rejected. -/
theorem insertMember_err (db : Db) (m : MemberRow)
    (h : (db.group_members.any fun m0 =>
      m0.group_id = m.group_id ∧ m0.user_id = m.user_id) = true) :
    insertMember db m = .error "duplicate key value violates unique constraint" := by
  unfold insertMember
  rw [if_pos h]

/-- Number of membership rows for the pair `(gid, uid)`. -/
def membershipCount (db : Db) (gid uid : String) : Nat :=
  (db.group_members.filter fun m => m.group_id = gid ∧ m.user_id = uid).length

/-- C5.  A first join with group `g`'s invite code adds exactly one
membership row for `(g.id, userId)`, and a repeated join attempt by the
same user leaves the table with still exactly one such row: the
`(group_id, user_id)` primary key rejects the duplicate. -/
theorem joinGroup_no_duplicate_membership (db : Db) (code userId : String) (g : GroupRow)
    (hfind : (db.groups.find? fun g0 => g0.invite_code = some code) = some g)
    (h0 : membershipCount db g.id userId = 0) :
    membershipCount (joinGroup db code userId).1 g.id userId = 1 ∧
    membershipCount (joinGroup (joinGroup db code userId).1 code userId).1 g.id userId = 1 := by
  have hnil : (db.group_members.filter fun m => m.group_id = g.id ∧ m.user_id = userId) = [] :=
    List.length_eq_zero.mp h0
  have hany : (db.group_members.any fun m0 =>
      m0.group_id = g.id ∧ m0.user_id = userId) = false := by
    rw [List.any_eq_false]
    intro m hm
    exact List.filter_eq_nil_iff.mp hnil m hm
  have hins : insertMember db { group_id := g.id, user_id := userId, is_creator := false }
      = .ok { db with group_members :=
          db.group_members ++ [{ group_id := g.id, user_id := userId, is_creator := false }] } :=
    insertMember_ok db { group_id := g.id, user_id := userId, is_creator := false } hany
  have hjoin1 : joinGroup db code userId =
      ({ db with group_members :=
          db.group_members ++ [{ group_id := g.id, user_id := userId, is_creator := false }] },
       none) := by
    unfold joinGroup
    simp only [hfind, hins]
  have hcount1 : membershipCount (joinGroup db code userId).1 g.id userId = 1 := by
    unfold membershipCount
    simp only [hjoin1]
    simp [List.filter_append, hnil]
    intro a ha hgid
    have hmem := List.filter_eq_nil_iff.mp hnil a ha
    simp only [decide_eq_true_eq, not_and] at hmem
    exact hmem hgid
  refine ⟨hcount1, ?_⟩
  set db1 := (joinGroup db code userId).1 with hdb1
  have hgroups1 : db1.groups = db.groups := by
    rw [hdb1]
    simp only [hjoin1]
  have hany2 : (db1.group_members.any fun m0 =>
      m0.group_id = g.id ∧ m0.user_id = userId) = true := by
    rw [List.any_eq_true]
    refine ⟨{ group_id := g.id, user_id := userId, is_creator := false }, ?_, by simp⟩
    rw [hdb1]
    simp only [hjoin1]
    simp
  have hins2 : insertMember db1 { group_id := g.id, user_id := userId, is_creator := false }
      = .error "duplicate key value violates unique constraint" :=
    insertMember_err db1 { group_id := g.id, user_id := userId, is_creator := false } hany2
  have hjoin2 : joinGroup db1 code userId =
      (db1, some "duplicate key value violates unique constraint") := by
    unfold joinGroup
    rw [hgroups1]
    simp only [hfind, hins2]
  rw [hjoin2]
  exact hcount1

/-! ## Dashboard profile fetch
(src/src/components/Dashboard.tsx, `fetchProfile`, lines 32–100)

A `while (retryCount < maxRetries && !profile)` loop with
`maxRetries = 3`: each pass runs the `maybeSingle()` profile select; a row
found breaks the loop with it.  On the first pass only, a missing row
(`!data`) triggers `supabase.auth.getUser()` and the insert of a default
profile; a successful insert breaks the loop with the inserted row.
Otherwise the pass waits `1000 * 2 ^ retryCount` and retries.  When the
loop ends without a profile, the catch block records the failure
message. -/

/-- The auth user returned by `supabase.auth.getUser().data.user`. -/
structure AuthUser where
  email : Option String
deriving DecidableEq, Repr

/-- JavaScript `userData.user.email?.split('@')[0] || 'User'`: the part of the email
before the first at sign, or `"User"` when the email is absent or that
part is empty (JavaScript treats the empty string as falsy). -/
def jsDefaultName (email : Option String) : String :=
  match email with
  | none => "User"
  | some s =>
    let localPart := (s.splitOn "@").headD ""
    if localPart = "" then "User" else localPart

/-- Characters `encodeURIComponent` leaves unescaped:
`A-Z a-z 0-9 - _ . ! ~ * ' ( )`. -/
def isUriUnreserved (c : Char) : Bool :=
  (decide ('A' ≤ c) && decide (c ≤ 'Z')) ||
  (decide ('a' ≤ c) && decide (c ≤ 'z')) ||
  (decide ('0' ≤ c) && decide (c ≤ '9')) ||
  ['-', '_', '.', '!', '~', '*', Char.ofNat 39, '(', ')'].contains c

/-- Uppercase hexadecimal digit for `n < 16`. -/
def hexDigitChar (n : Nat) : Char :=
  if n < 10 then Char.ofNat (48 + n) else Char.ofNat (55 + n)

/-- URI encoding `encodeURIComponent`, for ASCII strings (every string this development
applies it to is ASCII, so each character is a single UTF-8 byte equal to
its code point): unreserved characters pass through, any other character
becomes a percent sign followed by its code point in uppercase hex. -/
def encodeURIComponent (s : String) : String :=
  String.mk (s.data.foldr
    (fun c acc =>
      if isUriUnreserved c then c :: acc
      else '%' :: hexDigitChar (c.toNat / 16) :: hexDigitChar (c.toNat % 16) :: acc)
    [])

/-- The stickman SVG template literal of the default profile
(Dashboard.tsx lines 61–69), newlines and indentation included. -/
def dashboardStickmanSvg : String :=
  "\n                <svg xmlns=\"http://www.w3.org/2000/svg\" viewBox=\"0 0 100 100\">\n" ++
  "                  <circle cx=\"50\" cy=\"25\" r=\"20\" fill=\"none\" stroke=\"currentColor\" stroke-width=\"4\"/>\n" ++
  "                  <line x1=\"50\" y1=\"45\" x2=\"50\" y2=\"75\" stroke=\"currentColor\" stroke-width=\"4\"/>\n" ++
  "                  <line x1=\"20\" y1=\"60\" x2=\"80\" y2=\"60\" stroke=\"currentColor\" stroke-width=\"4\"/>\n" ++
  "                  <line x1=\"50\" y1=\"75\" x2=\"30\" y2=\"95\" stroke=\"currentColor\" stroke-width=\"4\"/>\n" ++
  "                  <line x1=\"50\" y1=\"75\" x2=\"70\" y2=\"95\" stroke=\"currentColor\" stroke-width=\"4\"/>\n" ++
  "                </svg>\n              "

/-- The generated stickman avatar data URL:
`data:image/svg+xml,` followed by the URI-encoded SVG. -/
def stickmanAvatarUrl : String :=
  "data:image/svg+xml," ++ encodeURIComponent dashboardStickmanSvg

/-- The `defaultProfile` literal built by `fetchProfile`
(Dashboard.tsx lines 54–70).  The `Partial<UserProfile>` sets no view code
and no custom avatar. -/
def defaultProfileFor (userId : String) (u : AuthUser) : UserProfile :=
  { id := userId
    name := jsDefaultName u.email
    bio := "I\x27m here to learn and teach"
    topics := []
    theme := "dark"
    view_code := none
    profile_picture_url := some stickmanAvatarUrl
    custom_avatar_url := none
    gender := "other" }

/-- The environment of one `fetchProfile` run: the `(data, error)` outcome
of the `maybeSingle()` select on each attempt, the auth user, and the
outcome of the default-profile insert (`none` = the insert succeeds and
`select().single()` returns the inserted row). -/
structure FetchProfileEnv where
  fetch : Nat → Option UserProfile × Option String
  authUser : Option AuthUser
  insertError : Option String

/-- The retry loop of `fetchProfile`.  Returns the outcome (`.ok` the
profile the run settles on and displays, `.error` the message the catch
block stores) together with the default-profile rows whose insert was
attempted. -/
def fetchProfileLoop (env : FetchProfileEnv) (userId : String) (retryCount : Nat) :
    Except String UserProfile × List UserProfile :=
  if _h : retryCount < 3 then
    match env.fetch retryCount with
    | (some data, none) => (.ok data, [])
    | (data, _) =>
      if retryCount = 0 ∧ data = none then
        match env.authUser with
        | some u =>
          match env.insertError with
          | none => (.ok (defaultProfileFor userId u), [defaultProfileFor userId u])
          | some _ =>
            let rest := fetchProfileLoop env userId (retryCount + 1)
            (rest.1, defaultProfileFor userId u :: rest.2)
        | none => fetchProfileLoop env userId (retryCount + 1)
      else fetchProfileLoop env userId (retryCount + 1)
  else (.error "Failed to load profile. Please refresh the page.", [])
termination_by 3 - retryCount
decreasing_by all_goals omega

def fetchProfile (env : FetchProfileEnv) (userId : String) :
    Except String UserProfile × List UserProfile :=
  fetchProfileLoop env userId 0

/-- C6.  When the first profile select finds no row and reports no
error, `fetchProfile` does not fail: it inserts the default profile for
the user — name the email's local part or `"User"`, the fixed bio, empty
topics, dark theme, gender `"other"`, the generated stickman avatar — and
proceeds with exactly that profile. -/
theorem fetchProfile_creates_default_on_missing_row (env : FetchProfileEnv)
    (userId : String) (u : AuthUser)
    (hfetch : env.fetch 0 = (none, none))
    (huser : env.authUser = some u)
    (hinsert : env.insertError = none) :
    fetchProfile env userId =
      (.ok (defaultProfileFor userId u), [defaultProfileFor userId u]) ∧
    (defaultProfileFor userId u).name = jsDefaultName u.email ∧
    (defaultProfileFor userId u).bio = "I\x27m here to learn and teach" ∧
    (defaultProfileFor userId u).topics = [] ∧
    (defaultProfileFor userId u).theme = "dark" ∧
    (defaultProfileFor userId u).gender = "other" ∧
    (defaultProfileFor userId u).profile_picture_url = some stickmanAvatarUrl := by
  refine ⟨?_, rfl, rfl, rfl, rfl, rfl, rfl⟩
  unfold fetchProfile
  rw [fetchProfileLoop]
  rw [hfetch, huser, hinsert]
  simp

/-- Witness for C6 with an auth user whose email has local part `ada`. -/
theorem fetchProfile_creates_default_on_missing_row_witness :
    fetchProfile
        { fetch := fun _ => (none, none)
          authUser := some { email := some "ada@example.com" }
          insertError := none } "u1" =
      (.ok (defaultProfileFor "u1" { email := some "ada@example.com" }),
       [defaultProfileFor "u1" { email := some "ada@example.com" }]) ∧
    (defaultProfileFor "u1" { email := some "ada@example.com" }).name =
      jsDefaultName (some "ada@example.com") ∧
    (defaultProfileFor "u1" { email := some "ada@example.com" }).bio =
      "I\x27m here to learn and teach" ∧
    (defaultProfileFor "u1" { email := some "ada@example.com" }).topics = [] ∧
    (defaultProfileFor "u1" { email := some "ada@example.com" }).theme = "dark" ∧
    (defaultProfileFor "u1" { email := some "ada@example.com" }).gender = "other" ∧
    (defaultProfileFor "u1" { email := some "ada@example.com" }).profile_picture_url =
      some stickmanAvatarUrl :=
  fetchProfile_creates_default_on_missing_row
    { fetch := fun _ => (none, none)
      authUser := some { email := some "ada@example.com" }
      insertError := none } "u1" { email := some "ada@example.com" } rfl rfl rfl

/-- Witness for C5: in the witness database, user `"u2"` joins group
`"g1"` by invite code `"inv1"` once, then attempts it again. -/
theorem joinGroup_no_duplicate_membership_witness :
    membershipCount (joinGroup fpDb "inv1" "u2").1 "g1" "u2" = 1 ∧
    membershipCount (joinGroup (joinGroup fpDb "inv1" "u2").1 "inv1" "u2").1 "g1" "u2" = 1 := by
  have h := joinGroup_no_duplicate_membership fpDb "inv1" "u2" fpGroup1 (by decide) (by decide)
  simpa [fpGroup1] using h

/-! ## Avatar upload
(src/src/components/Profile.tsx, `handleFileUpload`, lines 100–172)

```js
if (file.size > 5 * 1024 * 1024) { alert(...); return; }
if (!file.type.startsWith('image/')) { alert(...); return; }
```
then a 1000×1000 canvas is white-filled, the image drawn centred and
scaled, exported with `canvas.toBlob(..., 'image/jpeg', 0.9)`, and that
blob — not the original file — is uploaded to the `'avatars'` bucket as
`` `${userId}-${Date.now()}.jpg` `` with content type `image/jpeg`; the
public URL of the upload is then stored into the profile state. -/

/-- JavaScript `s.startsWith(pre)`: a prefix test on the characters.
(`String.startsWith` of the core library is defined through
`String.substrEq` and does not reduce in the kernel, so the character-list
prefix test, which is extensionally the same function, is used.) -/
def jsStartsWith (s pre : String) : Bool :=
  pre.data.isPrefixOf s.data

/-- A selected browser `File`: byte size, MIME type, and an abstract
identifier standing for its image content. -/
structure JsFile where
  size : Nat
  fileType : String
  content : Nat
deriving DecidableEq, Repr

/-- The body handed to `supabase.storage.upload`. -/
inductive UploadBody where
  /-- the original selected file -/
  | originalFile (f : JsFile)
  /-- the blob `canvas.toBlob` produced from the composite of source
  image `source` on a `width × height` canvas, exported as `format` -/
  | canvasBlob (width height : Nat) (format : String) (source : Nat)
deriving DecidableEq, Repr

/-- The canvas compositing step: a 1000×1000 canvas exported as JPEG. -/
def compositedBlob (f : JsFile) : UploadBody :=
  .canvasBlob 1000 1000 "image/jpeg" f.content

structure UploadRequest where
  bucket : String
  fileName : String
  body : UploadBody
  contentType : String
deriving DecidableEq, Repr

/-- The slice of the `Profile` component state the uploader touches. -/
structure ProfileAvatarState where
  profile_picture_url : Option String
  custom_avatar_url : Option String
deriving DecidableEq, Repr

/-- Model of `handleFileUpload` for a selected file (`e.target.files?.[0]`):
returns the resulting avatar state and the storage upload performed, if
any.  `now` is `Date.now()` and `publicUrlOf` the bucket's
`getPublicUrl`. -/
def handleFileUpload (userId : String) (now : Nat) (publicUrlOf : String → String)
    (st : ProfileAvatarState) (file : Option JsFile) :
    ProfileAvatarState × Option UploadRequest :=
  match file with
  | none => (st, none)
  | some f =>
    if f.size > 5 * 1024 * 1024 then (st, none)
    else if jsStartsWith f.fileType "image/" then
      let fileName := userId ++ "-" ++ toString now ++ ".jpg"
      let publicUrl := publicUrlOf fileName
      ({ profile_picture_url := some publicUrl, custom_avatar_url := some publicUrl },
       some { bucket := "avatars", fileName := fileName,
              body := compositedBlob f, contentType := "image/jpeg" })
    else (st, none)

/-- C8.  The upload proceeds only if the file is at most
`5 * 1024 * 1024` bytes and its MIME type starts with `image/`; when
either check fails no upload is attempted and the profile state is
unchanged; when both pass, the uploaded image is the canvas-composited
1000×1000 JPEG in the `avatars` bucket, not the original file. -/
theorem handleFileUpload_checks_and_composite (userId : String) (now : Nat)
    (publicUrlOf : String → String) (st : ProfileAvatarState) (f : JsFile) :
    ((f.size > 5 * 1024 * 1024 ∨ jsStartsWith f.fileType "image/" = false) →
      handleFileUpload userId now publicUrlOf st (some f) = (st, none)) ∧
    (f.size ≤ 5 * 1024 * 1024 → jsStartsWith f.fileType "image/" = true →
      ∃ req : UploadRequest,
        (handleFileUpload userId now publicUrlOf st (some f)).2 = some req ∧
        req.bucket = "avatars" ∧
        req.contentType = "image/jpeg" ∧
        req.body = compositedBlob f ∧
        compositedBlob f = .canvasBlob 1000 1000 "image/jpeg" f.content ∧
        req.body ≠ .originalFile f) := by
  constructor
  · intro hbad
    rcases hbad with hsize | htype
    · simp only [handleFileUpload]
      rw [if_pos hsize]
    · simp only [handleFileUpload]
      by_cases hsize : f.size > 5 * 1024 * 1024
      · rw [if_pos hsize]
      · rw [if_neg hsize, if_neg (by rw [htype]; simp)]
  · intro hsize htype
    refine ⟨{ bucket := "avatars",
              fileName := userId ++ "-" ++ toString now ++ ".jpg",
              body := compositedBlob f, contentType := "image/jpeg" }, ?_, rfl, rfl, rfl, rfl, ?_⟩
    · simp only [handleFileUpload]
      rw [if_neg (by omega), if_pos htype]
    · simp [compositedBlob]

/-- Witness for C8: a 6 MB file is rejected with the state unchanged; a
small JPEG is composited and uploaded. -/
theorem handleFileUpload_checks_and_composite_witness :
    (handleFileUpload "u1" 5 (fun s => s) { profile_picture_url := none, custom_avatar_url := none }
        (some { size := 6 * 1024 * 1024, fileType := "image/png", content := 0 }) =
      ({ profile_picture_url := none, custom_avatar_url := none }, none)) ∧
    (∃ req : UploadRequest,
      (handleFileUpload "u1" 5 (fun s => s)
          { profile_picture_url := none, custom_avatar_url := none }
          (some { size := 1000, fileType := "image/png", content := 0 })).2 = some req ∧
      req.bucket = "avatars" ∧
      req.contentType = "image/jpeg" ∧
      req.body = compositedBlob { size := 1000, fileType := "image/png", content := 0 } ∧
      compositedBlob { size := 1000, fileType := "image/png", content := 0 } =
        .canvasBlob 1000 1000 "image/jpeg"
          (JsFile.content { size := 1000, fileType := "image/png", content := 0 }) ∧
      req.body ≠ .originalFile { size := 1000, fileType := "image/png", content := 0 }) :=
  ⟨(handleFileUpload_checks_and_composite "u1" 5 (fun s => s)
      { profile_picture_url := none, custom_avatar_url := none }
      { size := 6 * 1024 * 1024, fileType := "image/png", content := 0 }).1
    (Or.inl (by norm_num)),
   (handleFileUpload_checks_and_composite "u1" 5 (fun s => s)
      { profile_picture_url := none, custom_avatar_url := none }
      { size := 1000, fileType := "image/png", content := 0 }).2
    (by norm_num) (by decide)⟩

/-! ## Sign out
(src/unnamed/part_000, `signOut`, lines 113–139)

```js
export const signOut = async () => {
  try {
    cleanup();
    const storageKey = supabase.auth.storageKey;
    if (storageKey) { window.localStorage.removeItem(storageKey); }
    const { error } = await supabase.auth.signOut();
    if (error) throw error;
    window.localStorage.removeItem('supabase.auth.token');
    window.localStorage.removeItem('supabase.auth.refreshToken');
    window.location.href = '/';
    return { error: null };
  } catch (error) { return { error }; }
};
```

Each step of the body may throw; the environment fixes each step's
outcome.  `supabase.auth.signOut()` may either reject outright or resolve
with an `error` field, which the body re-throws. -/

inductive SignOutStep where
  /-- the `cleanup()` call (clear the health-check timer, remove channels) -/
  | cleanup
  /-- step `localStorage.removeItem(storageKey)` -/
  | removeStorageKey (k : String)
  /-- the `supabase.auth.signOut()` call -/
  | authSignOut
  /-- step `localStorage.removeItem('supabase.auth.token')` -/
  | removeToken
  /-- step `localStorage.removeItem('supabase.auth.refreshToken')` -/
  | removeRefreshToken
  /-- step `window.location.href = '/'` -/
  | redirect
deriving DecidableEq, Repr

/-- The outcomes of the steps of one `signOut` run. -/
structure SignOutEnv (ε : Type) where
  cleanupResult : Except ε Unit
  /-- value of `supabase.auth.storageKey` (the client sets `'supabase.auth.token'`) -/
  storageKey : Option String
  removeStorageKeyResult : Except ε Unit
  /-- outcome `.error e` = the promise rejects; `.ok (some err)` = it resolves
  with a non-null `error` field; `.ok none` = it resolves cleanly -/
  authSignOutResult : Except ε (Option ε)
  removeTokenResult : Except ε Unit
  removeRefreshTokenResult : Except ε Unit

/-- The steps from `supabase.auth.signOut()` on. -/
def signOutTail (env : SignOutEnv ε) : List SignOutStep × Except ε Unit :=
  match env.authSignOutResult with
  | .error e => ([.authSignOut], .error e)
  | .ok (some err) => ([.authSignOut], .error err)
  | .ok none =>
    match env.removeTokenResult with
    | .error e => ([.authSignOut, .removeToken], .error e)
    | .ok _ =>
      match env.removeRefreshTokenResult with
      | .error e => ([.authSignOut, .removeToken, .removeRefreshToken], .error e)
      | .ok _ => ([.authSignOut, .removeToken, .removeRefreshToken, .redirect], .ok ())

/-- The `try` body of `signOut`: the steps attempted, in order, and its
outcome (`.error` = a step threw). -/
def signOutBody (env : SignOutEnv ε) : List SignOutStep × Except ε Unit :=
  match env.cleanupResult with
  | .error e => ([.cleanup], .error e)
  | .ok _ =>
    match env.storageKey with
    | some k =>
      match env.removeStorageKeyResult with
      | .error e => ([.cleanup, .removeStorageKey k], .error e)
      | .ok _ =>
        let rest := signOutTail env
        (.cleanup :: .removeStorageKey k :: rest.1, rest.2)
    | none =>
      let rest := signOutTail env
      (.cleanup :: rest.1, rest.2)

/-- Model of `signOut`: the catch block turns a thrown error into the resolved
value `{ error }`; a clean run resolves `{ error: null }`.  The result is
the trace of attempted steps and the `error` field of the resolved
value. -/
def signOut (env : SignOutEnv ε) : List SignOutStep × Option ε :=
  match signOutBody env with
  | (tr, .ok _) => (tr, none)
  | (tr, .error e) => (tr, some e)

/-- C10.  The `signOut` helper never rejects: it resolves `{ error: null }` when
the cleanup, the storage clearing, and the provider sign-out all succeed,
and `{ error: e }` with the caught error `e` when any step throws; and
whenever the provider sign-out is attempted, the channel/timer cleanup has
already run (successfully) as the first step. -/
theorem signOut_never_rejects (ε : Type) (env : SignOutEnv ε) :
    ((env.cleanupResult = .ok () ∧
      (∀ k, env.storageKey = some k → env.removeStorageKeyResult = .ok ()) ∧
      env.authSignOutResult = .ok none ∧
      env.removeTokenResult = .ok () ∧
      env.removeRefreshTokenResult = .ok ()) →
      (signOut env).2 = none) ∧
    (∀ e : ε, (signOutBody env).2 = .error e →
      signOut env = ((signOutBody env).1, some e)) ∧
    (SignOutStep.authSignOut ∈ (signOut env).1 →
      env.cleanupResult = .ok () ∧
      ∃ t, (signOut env).1 = .cleanup :: t) := by
  refine ⟨?_, ?_, ?_⟩
  · rintro ⟨hc, hk, ha, ht, hr⟩
    unfold signOut signOutBody signOutTail
    rw [hc, ha, ht, hr]
    cases hsk : env.storageKey with
    | none => rfl
    | some k => rw [hk k hsk]
  · intro e he
    unfold signOut
    rcases hb : signOutBody env with ⟨tr, r⟩
    rw [hb] at he
    simp only at he
    subst he
    rfl
  · intro hmem
    have htrace : (signOut env).1 = (signOutBody env).1 := by
      unfold signOut
      cases hb : signOutBody env with
      | mk tr r =>
        cases r <;> rfl
    rw [htrace] at hmem ⊢
    cases hc : env.cleanupResult with
    | error e =>
      unfold signOutBody at hmem
      rw [hc] at hmem
      simp at hmem
    | ok v =>
      cases v
      refine ⟨rfl, ?_⟩
      unfold signOutBody
      rw [hc]
      cases env.storageKey with
      | none => exact ⟨_, rfl⟩
      | some k =>
        cases env.removeStorageKeyResult with
        | error e => exact ⟨_, rfl⟩
        | ok v => cases v; exact ⟨_, rfl⟩

/-- The all-steps-succeed environment over `ε = Unit`. -/
def okSignOutEnv : SignOutEnv Unit :=
  { cleanupResult := .ok (), storageKey := some "supabase.auth.token",
    removeStorageKeyResult := .ok (), authSignOutResult := .ok none,
    removeTokenResult := .ok (), removeRefreshTokenResult := .ok () }

/-- Witness for C10: with every step succeeding, the run resolves
`{ error: null }`, and the cleanup-first property holds at the same
environment. -/
theorem signOut_never_rejects_witness :
    (signOut okSignOutEnv).2 = none ∧
    (SignOutStep.authSignOut ∈ (signOut okSignOutEnv).1 →
      okSignOutEnv.cleanupResult = .ok () ∧
      ∃ t, (signOut okSignOutEnv).1 = .cleanup :: t) :=
  ⟨(signOut_never_rejects Unit okSignOutEnv).1
    ⟨rfl, fun _ _ => rfl, rfl, rfl, rfl⟩,
   (signOut_never_rejects Unit okSignOutEnv).2.2⟩

end CsseApp
